import Mathlib

/-!
Shallow embedding of the TogetherCrew agents-workflow orchestration engine.

Each definition mirrors one Python function of the repository:

* `src/tasks/hivemind/classify_question.py` — the gating classifiers;
* `src/tasks/hivemind/query_data_sources.py` — retrieval with failure
  normalization and the RAG tool;
* `src/tasks/hivemind/agent.py` — the crewai flow (gating cascade, router,
  generation);
* `src/tasks/hivemind/answer_validator.py` — the answer validator;
* `src/tasks/mongo_persistence.py` — the audit recorder;
* `src/tasks/redis_memory.py` — the conversational memory store;
* `src/tasks/agent.py` — the activity gluing everything together.

Remote calls (language models, the local transformer classifier, the Temporal
retrieval workflow, the crewai agents) are modelled by passing their raw
responses as explicit oracle inputs; the embedded code is the deterministic
Python logic that consumes those responses.  Python floats are modelled by
exact rationals (every score literal the code compares against is a short
decimal, exactly representable in both).  Log statements and timestamps carry
no decision content and are elided; audit step payloads are kept.
-/

namespace AgentsWorkflow

/-- Decidable equality for `Except`, used to evaluate concrete runs. -/
def exceptDecEq {ε α : Type} [DecidableEq ε] [DecidableEq α] :
    (a b : Except ε α) → Decidable (a = b)
  | Except.ok a, Except.ok b =>
    if h : a = b then isTrue (by rw [h]) else isFalse (by intro hh; cases hh; exact h rfl)
  | Except.ok _, Except.error _ => isFalse (by intro hh; cases hh)
  | Except.error _, Except.ok _ => isFalse (by intro hh; cases hh)
  | Except.error e, Except.error f =>
    if h : e = f then isTrue (by rw [h]) else isFalse (by intro hh; cases hh; exact h rfl)

instance {ε α : Type} [DecidableEq ε] [DecidableEq α] : DecidableEq (Except ε α) :=
  exceptDecEq

/-! ### Python string primitives

Structural-recursion implementations of the Python string operations the
source uses (`in`, `split`, `replace`, `strip`, `lower`), so that concrete
runs reduce inside the kernel. -/

/-- Is the first list a prefix of the second? -/
def isPrefixList : List Char → List Char → Bool
  | [], _ => true
  | _ :: _, [] => false
  | a :: as, b :: bs => a == b && isPrefixList as bs

/-- Python substring test over char lists: does `needle` occur in `hay`? -/
def containsSub : List Char → List Char → Bool
  | [], needle => needle.isEmpty
  | h :: t, needle => isPrefixList needle (h :: t) || containsSub t needle

/-- Python `needle in hay` on strings. -/
def strContains (hay needle : String) : Bool :=
  containsSub hay.data needle.data

/-- Index of the first occurrence of `needle` in `hay`, if any. -/
def findSub : List Char → List Char → Option Nat
  | [], needle => if needle.isEmpty then some 0 else none
  | h :: t, needle =>
    if isPrefixList needle (h :: t) then some 0
    else (findSub t needle).map (· + 1)

/-- Split `hay` at the first occurrence of `needle`: the part before and the
part after (the occurrence removed). -/
def splitFirst (hay needle : List Char) : Option (List Char × List Char) :=
  (findSub hay needle).map (fun i => (hay.take i, hay.drop (i + needle.length)))

/-- Python `s.split(sep)[0]` for a nonempty separator. -/
def pySplitPart0 (s sep : String) : String :=
  match splitFirst s.data sep.data with
  | some (pre, _) => String.mk pre
  | none => s

/-- Python `s.split(sep)[1]` for a nonempty separator; the callers of this
helper only reach it after checking `sep in s`, which is exactly when Python
would not raise an IndexError. -/
def pySplitPart1 (s sep : String) : String :=
  match splitFirst s.data sep.data with
  | some (_, post) =>
    match findSub post sep.data with
    | some j => String.mk (post.take j)
    | none => String.mk post
  | none => ""

/-- Remove every occurrence of `needle` (fuel-bounded helper). -/
def removeAllAux : Nat → List Char → List Char → List Char
  | 0, hay, _ => hay
  | fuel + 1, hay, needle =>
    match splitFirst hay needle with
    | none => hay
    | some (pre, post) => pre ++ removeAllAux fuel post needle

/-- Python `s.replace(needle, "")` for a nonempty needle. -/
def pyRemoveAll (s needle : String) : String :=
  String.mk (removeAllAux s.data.length s.data needle.data)

/-- Python `s.strip()`. -/
def pyStrip (s : String) : String :=
  String.mk (((s.data.dropWhile Char.isWhitespace).reverse.dropWhile
    Char.isWhitespace).reverse)

/-- Python `s.lower()`. -/
def pyLower (s : String) : String :=
  String.mk (s.data.map Char.toLower)

/-- Decimal digit test. -/
def isDigitChar (c : Char) : Bool := '0' ≤ c && c ≤ '9'

/-- Numeric value of a digit string. -/
def digitsVal (l : List Char) : Nat :=
  l.foldl (fun a c => a * 10 + (c.toNat - 48)) 0

/-! ### `classify_question.py` — ClassifyQuestion -/

/-- Body of the score regex after the optional sign: `\d*\.?\d+` as a whole
string match (only digits and at most one dot, ending in a digit). -/
def scoreBody (l : List Char) : Bool :=
  !l.isEmpty &&
  l.all (fun c => isDigitChar c || c == '.') &&
  decide (l.count '.' ≤ 1) &&
  (match l.getLast? with
   | some c => isDigitChar c
   | none => false)

/-- Embedding of `re.match(r"^-?\d*\.?\d+$", s)` used by
`ClassifyQuestion.classify_message_lm`. -/
def matchesScoreNumber (s : String) : Bool :=
  match s.data with
  | '-' :: rest => scoreBody rest
  | l => scoreBody l

/-- Value of a matched decimal string (Python `float(s)`, read exactly as a
rational). -/
def parseScore (s : String) : ℚ :=
  let body : List Char → ℚ := fun l =>
    match splitFirst l ['.'] with
    | none => mkRat (digitsVal l) 1
    | some (a, b) => mkRat (digitsVal a * 10 ^ b.length + digitsVal b) (10 ^ b.length)
  match s.data with
  | '-' :: rest => -(body rest)
  | l => body l

/-- Result type of `ClassifyQuestion.classify_question_lm`. -/
structure QuestionClassificationResult where
  result : Bool
  reasoning : Option String
deriving DecidableEq, Repr

/-- Result type of `ClassifyQuestion.classify_message_lm`. -/
structure MessageClassificationResult where
  result : Bool
  score : ℚ
  reasoning : Option String
deriving DecidableEq, Repr

/-- The `rag_threshold` validation in `ClassifyQuestion.__init__`: raises a
`ValueError` unless `0 <= rag_threshold <= 1`. -/
def classify_question_init (rag_threshold : ℚ) : Except String Unit :=
  if 0 ≤ rag_threshold ∧ rag_threshold ≤ 1 then Except.ok ()
  else Except.error "rag_threshold must be between 0 and 1"

/-- `ClassifyQuestion.classify_message`: the local question-vs-statement
model.  The transformer label is the oracle input; `custom_labels.get` yields
`None` for any label other than the two known ones. -/
def classify_message (label : String) : Option Bool :=
  if label == "LABEL_0" then some false
  else if label == "LABEL_1" then some true
  else none

/-- The simple-response branch of `classify_question_lm`: the whole lowercased
text must be one of the recognized boolean tokens. -/
def simpleBool (response_text : String) : Except String QuestionClassificationResult :=
  let response_lower := pyLower response_text
  if response_lower == "true" || response_lower == "yes" || response_lower == "1" then
    Except.ok { result := true, reasoning := none }
  else if response_lower == "false" || response_lower == "no" || response_lower == "0" then
    Except.ok { result := false, reasoning := none }
  else
    Except.error ("Unexpected boolean response from model: " ++ response_text)

/-- The except-handler fallback of `classify_question_lm`: substring search
for boolean words in the lowercased text. -/
def fallbackBool (response_text : String) : Except String QuestionClassificationResult :=
  let response_lower := pyLower response_text
  if strContains response_lower "true" || strContains response_lower "yes" then
    Except.ok { result := true, reasoning := none }
  else if strContains response_lower "false" || strContains response_lower "no" then
    Except.ok { result := false, reasoning := none }
  else
    Except.error ("Could not parse response: " ++ response_text)

/-- `ClassifyQuestion.classify_question_lm` applied to the raw model response
`content` (the code first strips it). -/
def classify_question_lm (enable_reasoning : Bool) (content : String) :
    Except String QuestionClassificationResult :=
  let response_text := pyStrip content
  if enable_reasoning && strContains response_text "Reasoning:" &&
      strContains response_text "Result:" then
    let reasoning_part := pyStrip (pyRemoveAll (pySplitPart0 response_text "Result:") "Reasoning:")
    let result_part := pyLower (pyStrip (pySplitPart1 response_text "Result:"))
    if result_part == "true" || result_part == "yes" || result_part == "1" then
      Except.ok { result := true,
                  reasoning := if reasoning_part == "" then none else some reasoning_part }
    else if result_part == "false" || result_part == "no" || result_part == "0" then
      Except.ok { result := false,
                  reasoning := if reasoning_part == "" then none else some reasoning_part }
    else
      fallbackBool response_text
  else
    simpleBool response_text

/-- The simple-response branch of `classify_message_lm`: regex match on the
lowercased text, then the range check, then the threshold comparison. -/
def simpleScore (rag_threshold : ℚ) (response_text : String) :
    Except String MessageClassificationResult :=
  let response_lower := pyLower response_text
  if matchesScoreNumber response_lower then
    let score := parseScore response_lower
    if 0 ≤ score ∧ score ≤ 1 then
      Except.ok { result := decide (rag_threshold ≤ score), score := score, reasoning := none }
    else
      Except.error "Generated score must be between 0 and 1"
  else
    Except.error ("Wrong response: " ++ response_text)

/-- The except-handler fallback of `classify_message_lm` (identical logic to
the simple branch, reached when structured parsing fails). -/
def fallbackScore (rag_threshold : ℚ) (response_text : String) :
    Except String MessageClassificationResult :=
  let response_lower := pyLower response_text
  if matchesScoreNumber response_lower then
    let score := parseScore response_lower
    if 0 ≤ score ∧ score ≤ 1 then
      Except.ok { result := decide (rag_threshold ≤ score), score := score, reasoning := none }
    else
      Except.error "Generated score must be between 0 and 1"
  else
    Except.error ("Could not parse response: " ++ response_text)

/-- `ClassifyQuestion.classify_message_lm` applied to the raw model response
`content`.  In the structured branch a malformed or out-of-range score raises
a `ValueError` that the surrounding `except` catches, after which the whole
text is re-parsed by the fallback (and, containing the word `Reasoning:`,
never matches the numeric regex there). -/
def classify_message_lm (enable_reasoning : Bool) (rag_threshold : ℚ) (content : String) :
    Except String MessageClassificationResult :=
  let response_text := pyStrip content
  if enable_reasoning && strContains response_text "Reasoning:" &&
      strContains response_text "Score:" then
    let reasoning_part := pyStrip (pyRemoveAll (pySplitPart0 response_text "Score:") "Reasoning:")
    let score_part := pyStrip (pySplitPart1 response_text "Score:")
    if matchesScoreNumber score_part then
      let score := parseScore score_part
      if 0 ≤ score ∧ score ≤ 1 then
        Except.ok { result := decide (rag_threshold ≤ score), score := score,
                    reasoning := if reasoning_part == "" then none else some reasoning_part }
      else
        fallbackScore rag_threshold response_text
    else
      fallbackScore rag_threshold response_text
  else
    simpleScore rag_threshold response_text

/-! ### `answer_validator.py` — AnswerValidator

`AnswerValidator.check_answer_validity` sends the question and answer to a
language model constrained to a single boolean field `relative` and returns
that field.  The parsed model response is the oracle input.  Note that no
code under `src/` ever calls this method. -/

/-- `AnswerValidator.check_answer_validity`: returns the parsed `relative`
field of the model response. -/
def check_answer_validity (modelRelative : Bool) : Bool := modelRelative

/-! ### `query_data_sources.py` — QueryDataSources and the RAG tool -/

/-- A Python value returned by the Temporal `execute_workflow` call: a
string, a mapping (only its keys matter to the code), or anything else. -/
inductive TemporalValue
  | pyStr (s : String)
  | pyDict (keys : List String)
  | pyOther
deriving DecidableEq, Repr

/-- Outcome of the remote Temporal call inside `QueryDataSources.query`:
it raises a `WorkflowFailureError`, raises some other exception, or returns
a value. -/
inductive TemporalCall
  | raisesWorkflowFailure (msg : String)
  | raisesOther (msg : String)
  | returns (v : TemporalValue)
deriving DecidableEq, Repr

/-- `QueryDataSources.query`: both exception shapes are caught and yield
`None`; a returned mapping holding a `workflowExecutionFailedEventAttributes`
or `failure` key, or a returned string containing the serialized failure
marker, is normalized to `None`; every other return value passes through. -/
def queryDataSources_query (call : TemporalCall) : Option TemporalValue :=
  match call with
  | TemporalCall.raisesWorkflowFailure _ => none
  | TemporalCall.raisesOther _ => none
  | TemporalCall.returns v =>
    match v with
    | TemporalValue.pyDict keys =>
      if keys.contains "workflowExecutionFailedEventAttributes" || keys.contains "failure"
      then none
      else some (TemporalValue.pyDict keys)
    | TemporalValue.pyStr s =>
      if strContains s "workflowExecutionFailedEventAttributes"
      then none
      else some (TemporalValue.pyStr s)
    | TemporalValue.pyOther => some TemporalValue.pyOther

/-- `get_rag_answer`, the tool built by `make_rag_tool`: queries the data
sources and replaces a `None` response by the literal string "NONE". -/
def get_rag_answer (call : TemporalCall) : TemporalValue :=
  match queryDataSources_query call with
  | none => TemporalValue.pyStr "NONE"
  | some v => v

/-! ### `mongo_persistence.py` — MongoPersistence (the Audit Recorder)

The MongoDB collection is modelled as an association list from document id
strings to documents, together with an availability flag: an unavailable
store makes every client call raise, which the code catches (or, for
`create_workflow_state`, re-raises).  `ObjectId(workflow_id)` raises on any
string that is not 24 hex characters, before the store is touched.
Timestamps carry no decision content and are elided from the document. -/

/-- A Python value stored in a step-data mapping. -/
inductive PyVal
  | vStr (s : String)
  | vBool (b : Bool)
  | vInt (n : Int)
  | vFloat (q : ℚ)
  | vNone
deriving DecidableEq, Repr

/-- The `step_data` mapping of one step entry. -/
abbrev StepData := List (String × PyVal)

/-- One entry of the `steps` array (timestamp elided). -/
structure StepEntry where
  stepName : String
  data : StepData
deriving DecidableEq, Repr

/-- A workflow-state document as created by `create_workflow_state` (route,
filters, metadata and timestamps elided: the code never reads them back).
`response = some m` models the document after `update_response` set
`response.message` to `m`. -/
structure WorkflowDoc where
  communityId : String
  question : String
  response : Option (Option String)
  steps : List StepEntry
  currentStep : String
  status : String
  chatId : Option String
  enableAnswerSkipping : Bool
deriving DecidableEq, Repr

/-- The MongoDB collection state.  `available = false` models a store that
is down: every client call raises.  `faults` is a per-call fault schedule
for an otherwise-available store: each attempted client write (insert or
update) consumes its head, and raises when that head is `true` — modelling
the transient pymongo exceptions that every operation of
`mongo_persistence.py` catches individually (and which `create` re-raises).
An empty schedule means no transient failures; reads leave no trace in the
store, so a raising read is modelled by the availability flag alone. -/
structure MongoStore where
  available : Bool
  docs : List (String × WorkflowDoc)
  nextId : Nat
  faults : List Bool
deriving DecidableEq, Repr

/-- Outcome of the next attempted client call and the remaining schedule. -/
def popFault (s : MongoStore) : Bool × MongoStore :=
  match s.faults with
  | [] => (false, s)
  | f :: rest => (f, { s with faults := rest })

/-- Hex-digit test (`ObjectId` accepts 24 hex characters). -/
def isHexChar (c : Char) : Bool :=
  isDigitChar c || ('a' ≤ c && c ≤ 'f') || ('A' ≤ c && c ≤ 'F')

/-- Does `ObjectId(s)` parse? -/
def isValidObjectId (s : String) : Bool :=
  (s.data.length == 24) && s.data.all isHexChar

/-- Decimal digits of `n`, fuel-bounded (low-order digits kept). -/
def decDigitsAux : Nat → Nat → List Char
  | 0, _ => []
  | fuel + 1, n =>
    if n == 0 then []
    else decDigitsAux fuel (n / 10) ++ [Char.ofNat (48 + n % 10)]

/-- The id the store hands out for the `nextId`-th insertion, padded to the
24-character ObjectId shape. -/
def objectIdOf (n : Nat) : String :=
  let ds := decDigitsAux 24 n
  String.mk (List.replicate (24 - ds.length) '0' ++ ds)

/-- First document bound to `id`. -/
def findDoc (docs : List (String × WorkflowDoc)) (id : String) : Option WorkflowDoc :=
  (docs.find? (fun p => p.1 == id)).map (fun p => p.2)

/-- Rewrite the (first) document bound to `id` with `f`. -/
def updateDocs (docs : List (String × WorkflowDoc)) (id : String)
    (f : WorkflowDoc → WorkflowDoc) : List (String × WorkflowDoc) :=
  match docs with
  | [] => []
  | (k, d) :: rest =>
    if k == id then (k, f d) :: rest else (k, d) :: updateDocs rest id f

/-- `MongoPersistence.create_workflow_state`: inserts the fresh document
(`status="running"`, `currentStep="initialized"`, no steps) and returns its
id; on store failure — the store down, or the insert call itself raising —
the exception is logged and re-raised. -/
def create_workflow_state (store : MongoStore) (community_id query : String)
    (chat_id : Option String) (enable_answer_skipping : Bool) :
    Except String (String × MongoStore) :=
  if store.available then
    if (popFault store).1 then Except.error "Error creating workflow state"
    else
      let id := objectIdOf store.nextId
      let doc : WorkflowDoc :=
        { communityId := community_id, question := query, response := none, steps := [],
          currentStep := "initialized", status := "running", chatId := chat_id,
          enableAnswerSkipping := enable_answer_skipping }
      Except.ok (id,
        { (popFault store).2 with
            docs := store.docs ++ [(id, doc)], nextId := store.nextId + 1 })
  else
    Except.error "Error creating workflow state"

/-- `MongoPersistence.update_workflow_step`: pushes a step entry and updates
`currentStep`/`status`; a malformed id or an unavailable store makes the body
raise without an attempted write, a scheduled per-call fault makes the
attempted `update_one` raise — all caught and turned into `False` — and
`modified_count` is zero when no document matches. -/
def update_workflow_step (store : MongoStore) (workflow_id step_name : String)
    (step_data : StepData) (status : String) : Bool × MongoStore :=
  if !isValidObjectId workflow_id then (false, store)
  else if !store.available then (false, store)
  else if (popFault store).1 then (false, (popFault store).2)
  else
    match findDoc store.docs workflow_id with
    | none => (false, (popFault store).2)
    | some _ =>
      (true, { (popFault store).2 with docs := updateDocs store.docs workflow_id (fun d =>
        { d with steps := d.steps ++ [{ stepName := step_name, data := step_data }],
                 currentStep := step_name, status := status }) })

/-- `MongoPersistence.update_response`: sets `response.message` and `status`;
failures degrade to `False` exactly as in `update_workflow_step`. -/
def update_response (store : MongoStore) (workflow_id : String)
    (response_message : Option String) (status : String) : Bool × MongoStore :=
  if !isValidObjectId workflow_id then (false, store)
  else if !store.available then (false, store)
  else if (popFault store).1 then (false, (popFault store).2)
  else
    match findDoc store.docs workflow_id with
    | none => (false, (popFault store).2)
    | some _ =>
      (true, { (popFault store).2 with docs := updateDocs store.docs workflow_id (fun d =>
        { d with response := some response_message, status := status }) })

/-- `MongoPersistence.get_workflow_state`: returns the document or `None`;
a malformed id or a raising `find_one` call raises inside the `try`, which
is caught and turned into `None`.  A read leaves no trace in the store, so
its failure is modelled by the availability flag (a per-call read fault is
observationally the same as reading while the store is down). -/
def get_workflow_state (store : MongoStore) (workflow_id : String) : Option WorkflowDoc :=
  if !isValidObjectId workflow_id then none
  else if !store.available then none
  else findDoc store.docs workflow_id

/-! ### `redis_memory.py` — RedisMemory (the Memory Store adapter)

A healthy Redis instance is modelled as an association list from keys to
(value, remaining-TTL) pairs; `GET` on an absent key returns nil and `DEL`
returns the number of removed keys — neither raises.  -/

/-- Key-value store with per-key TTL (seconds). -/
abbrev RedisState := List (String × (String × Nat))

/-- The expiry used by every write: `timedelta(minutes=15).total_seconds()`. -/
def redisTimeout : Nat := 900

/-- Redis `GET`. -/
def redisGet (rs : RedisState) (key : String) : Option String :=
  (rs.find? (fun p => p.1 == key)).map (fun p => p.2.1)

/-- Redis `SETEX`: sets the value and resets the expiry window. -/
def redisSetex (rs : RedisState) (key : String) (ttl : Nat) (value : String) : RedisState :=
  match rs with
  | [] => [(key, (value, ttl))]
  | (k, v) :: rest =>
    if k == key then (k, (value, ttl)) :: rest
    else (k, v) :: redisSetex rest key ttl value

/-- Redis `DEL` of one key: the number of removed keys and the new state. -/
def redisDelete (rs : RedisState) (key : String) : Nat × RedisState :=
  ((if (rs.find? (fun p => p.1 == key)).isSome then 1 else 0),
   rs.filter (fun p => !(p.1 == key)))

/-- `RedisMemory.append_text`: concatenates to the existing (truthy) value or
creates the key, resetting the expiry either way, and reports success. -/
def append_text (rs : RedisState) (key text : String) : Bool × RedisState :=
  match redisGet rs key with
  | some current =>
    if current == "" then (true, redisSetex rs key redisTimeout text)
    else (true, redisSetex rs key redisTimeout (current ++ text))
  | none => (true, redisSetex rs key redisTimeout text)

/-- `RedisMemory.get_text`: the stored text, or `None` when absent. -/
def get_text (rs : RedisState) (key : String) : Option String :=
  redisGet rs key

/-- `RedisMemory.delete_text`: `bool(DEL key)` and the new state. -/
def delete_text (rs : RedisState) (key : String) : Bool × RedisState :=
  let r := redisDelete rs key
  (r.1 != 0, r.2)

/-! ### `tasks/hivemind/agent.py` — AgenticHivemindFlow

The crewai flow is embedded as the sequential composition its listener
graph encodes: `detect_question` (the gating cascade), `route_start`,
`detect_question_type` (the history router), `do_rag_query` /
`do_history_query` (generation), `detect_stop_state`.  Every language-model
interaction is an oracle input; the list of `FlowEvent`s records which
remote capabilities a run invoked, in order.  The flow writes audit steps
through the `MongoPersistence` handle whenever both it and a workflow id are
present (`persist`). -/

/-- Raw remote responses consumed by the gating cascade. -/
structure ClassifierOracle where
  localLabel : String
  questionResponse : String
  ragResponse : String
deriving DecidableEq, Repr

/-- One invocation of a remote capability during a flow run. -/
inductive FlowEvent
  | localClassify
  | questionClassifyLM
  | ragClassifyLM
  | historyClassifyLM
  | generation (answer : String)
  | validate (question answer : String)
deriving DecidableEq, Repr

/-- The value the flow hands back through `detect_stop_state`: crewai crew
output (history path) or the plain string the rag agent-executor produced
(`result["output"]`). -/
inductive FlowAnswer
  | crewOutput (raw : String)
  | plainString (s : String)
deriving DecidableEq, Repr

/-- `AgenticFlowState` of the flow (pydantic model). -/
structure AgenticFlowState where
  user_query : String
  retry_count : Nat
  last_answer : Option FlowAnswer
  state : String
  chat_history : Option String
deriving DecidableEq, Repr

/-- Raw remote responses consumed by a whole flow run. -/
structure FlowOracle where
  classifier : ClassifierOracle
  isHistoryQuery : Bool
  historyCrewRaw : String
  ragAgentOutput : String
deriving DecidableEq, Repr

/-- A finished flow run: the kickoff output, the final flow state, the
audit store after the flow-written steps, and the remote calls made. -/
structure FlowRun where
  output : Option FlowAnswer
  finalState : AgenticFlowState
  mongo : MongoStore
  events : List FlowEvent
deriving DecidableEq, Repr

/-- `if self.mongo_persistence and self.workflow_id:` guarded step write. -/
def persistStep (persist : Option String) (store : MongoStore)
    (step_name : String) (step_data : StepData) : MongoStore :=
  match persist with
  | some wid => (update_workflow_step store wid step_name step_data "running").2
  | none => store

/-- `AgenticHivemindFlow.detect_question`, the gating cascade: local
question-vs-statement classifier, then the LLM is-question classifier, then
the LLM RAG-sensitivity scorer (threshold 1/2, reasoning enabled), writing
each stage outcome to the audit trail; a falsy local result (including the
`None` produced by an unrecognized label) stops, LLM parse failures raise.
Returns the routing state, the audit store, and the classifier calls made;
an error carries the audit store at raise time. -/
def detect_question (user_query : String) (enable_answer_skipping : Bool)
    (persist : Option String) (store : MongoStore) (o : ClassifierOracle) :
    Except (String × MongoStore) (String × MongoStore × List FlowEvent) :=
  if !enable_answer_skipping then
    Except.ok ("continue", store, [])
  else
    let question := classify_message o.localLabel
    let store1 := persistStep persist store "local_model_classification"
      [("result", match question with
                  | some b => PyVal.vBool b
                  | none => PyVal.vNone),
       ("model", PyVal.vStr "local_transformer"),
       ("query", PyVal.vStr user_query)]
    if !(question == some true) then
      Except.ok ("stop", store1, [FlowEvent.localClassify])
    else
      match classify_question_lm true o.questionResponse with
      | Except.error e => Except.error (e, store1)
      | Except.ok is_question =>
        let store2 := persistStep persist store1 "question_classification"
          [("result", PyVal.vBool is_question.result),
           ("reasoning", match is_question.reasoning with
                         | some r => PyVal.vStr r
                         | none => PyVal.vNone),
           ("model", PyVal.vStr "language_model"),
           ("query", PyVal.vStr user_query)]
        if !is_question.result then
          Except.ok ("stop", store2, [FlowEvent.localClassify, FlowEvent.questionClassifyLM])
        else
          match classify_message_lm true (mkRat 1 2) o.ragResponse with
          | Except.error e => Except.error (e, store2)
          | Except.ok rag_question =>
            let store3 := persistStep persist store2 "rag_classification"
              [("result", PyVal.vBool rag_question.result),
               ("score", PyVal.vFloat rag_question.score),
               ("reasoning", match rag_question.reasoning with
                             | some r => PyVal.vStr r
                             | none => PyVal.vNone),
               ("model", PyVal.vStr "language_model"),
               ("query", PyVal.vStr user_query)]
            Except.ok (if rag_question.result then "continue" else "stop", store3,
              [FlowEvent.localClassify, FlowEvent.questionClassifyLM, FlowEvent.ragClassifyLM])

/-- The flow after `detect_question`: `route_start` dispatches on the
routing state; `stop` returns `last_answer` (still `None`) through
`detect_stop_state`; `continue` runs `detect_question_type` (asking the
history classifier only when chat history is truthy), then one generation
pass (`do_history_query` or `do_rag_query`), which stores the answer,
increments `retry_count`, and routes to `stop`. -/
def runFlow (user_query : String) (chat_history : Option String)
    (enable_answer_skipping : Bool) (persist : Option String)
    (store : MongoStore) (o : FlowOracle) : Except (String × MongoStore) FlowRun :=
  let st0 : AgenticFlowState :=
    { user_query := user_query, retry_count := 0, last_answer := none,
      state := "continue", chat_history := chat_history }
  match detect_question user_query enable_answer_skipping persist store o.classifier with
  | Except.error e => Except.error e
  | Except.ok (route, store1, ev1) =>
    let st1 := { st0 with state := route }
    if route == "stop" then
      Except.ok { output := st1.last_answer, finalState := st1, mongo := store1, events := ev1 }
    else
      let chatTruthyFlow := !(st1.chat_history.getD "" == "")
      let is_history_query := chatTruthyFlow && o.isHistoryQuery
      let store2 :=
        if chatTruthyFlow then
          persistStep persist store1 "history_query_classification"
            [("result", PyVal.vBool o.isHistoryQuery),
             ("model", PyVal.vStr "openai_gpt4"),
             ("query", PyVal.vStr user_query),
             ("hasChatHistory", PyVal.vBool true)]
        else store1
      let ev2 := if chatTruthyFlow then ev1 ++ [FlowEvent.historyClassifyLM] else ev1
      if is_history_query then
        let st2 := { st1 with last_answer := some (FlowAnswer.crewOutput o.historyCrewRaw),
                              retry_count := st1.retry_count + 1 }
        Except.ok { output := st2.last_answer, finalState := st2, mongo := store2,
                    events := ev2 ++ [FlowEvent.generation o.historyCrewRaw] }
      else
        let st2 := { st1 with last_answer := some (FlowAnswer.plainString o.ragAgentOutput),
                              retry_count := st1.retry_count + 1 }
        Except.ok { output := st2.last_answer, finalState := st2, mongo := store2,
                    events := ev2 ++ [FlowEvent.generation o.ragAgentOutput] }

/-! ### `tasks/agent.py` — run_hivemind_agent_activity

The Temporal activity: creates the audit record (create failure is fatal),
loads chat history when a chat id is present, runs the flow, post-processes
the answer (fallback message, sanitization), appends the exchange to memory,
finalizes the audit record, and returns the answer (with the "NONE" sentinel
mapped to `None`).  A flow exception is recorded as `status="failed"` and
re-raised. -/

/-- The inbound `HivemindQueryPayload` (chat id defaults to the empty
string, which is falsy). -/
structure HivemindQueryPayload where
  community_id : String
  query : String
  enable_answer_skipping : Bool
  chat_id : Option String
deriving DecidableEq, Repr

/-- Result of one activity invocation: the returned value (or the re-raised
exception), the final audit store and the final memory store. -/
structure ActivityResult where
  result : Except String (Option String)
  mongo : MongoStore
  redis : RedisState
deriving DecidableEq, Repr

/-- Python truthiness of `payload.chat_id`. -/
def chatTruthy (p : HivemindQueryPayload) : Bool :=
  !(p.chat_id.getD "" == "")

/-- The Redis key `f"conversation:{payload.chat_id}"`. -/
def memoryKey (p : HivemindQueryPayload) : String :=
  "conversation:" ++ p.chat_id.getD ""

/-- Python `str(x)` for `x` a string or `None`, as interpolated by f-strings. -/
def pyShowOpt : Option String → String
  | some s => s
  | none => "None"

/-- The line appended to conversational memory:
`f"User: {payload.query}\nAgent: {final_answer}"`. -/
def chatLine (query : String) (final_answer : Option String) : String :=
  "User: " ++ query ++ "\nAgent: " ++ pyShowOpt final_answer

/-- `type(x).__name__` for the flow output. -/
def crewOutputTypeName : Option FlowAnswer → String
  | some (FlowAnswer.crewOutput _) => "CrewOutput"
  | some (FlowAnswer.plainString _) => "str"
  | none => "NoneType"

/-- `type(x).__name__` for the final answer. -/
def answerTypeName : Option String → String
  | some _ => "str"
  | none => "NoneType"

/-- The answer before sanitization: the crew output text if the flow
returned a `CrewOutput`, else the fallback message when answer skipping is
disabled, else `None`. -/
def rawFinalAnswer (enable_answer_skipping : Bool) (flowOut : Option FlowAnswer) :
    Option String :=
  match flowOut with
  | some (FlowAnswer.crewOutput raw) => some raw
  | _ => if !enable_answer_skipping then some "No answer was generated." else none

/-- `isinstance(final_answer, str) and "encountered an error" in
final_answer.lower()`. -/
def needsSanitize (final_answer : Option String) : Bool :=
  match final_answer with
  | some s => strContains (pyLower s) "encountered an error"
  | none => false

/-- The fixed user-facing apology string. -/
def sanitizedMessage : String :=
  "Looks like things didn\u0027t go through. Please give it another go."

/-- The final answer of an invocation whose flow returned `flowOut`. -/
def finalAnswerOf (enable_answer_skipping : Bool) (flowOut : Option FlowAnswer) :
    Option String :=
  let fa0 := rawFinalAnswer enable_answer_skipping flowOut
  if needsSanitize fa0 then some sanitizedMessage else fa0

/-- The chat history the activity loads for the flow. -/
def activityChatHistory (p : HivemindQueryPayload) (rs : RedisState) : Option String :=
  if chatTruthy p then get_text rs (memoryKey p) else none

/-- The audit writes the activity performs before running the flow: the
workflow id handed out by `create_workflow_state` and the store after the
`initialization`, chat-history, `flow_initialization` and
`flow_execution_start` steps.  (Only called once `create` succeeded.) -/
def activityPreflowStore (p : HivemindQueryPayload) (wid : String) (s1 : MongoStore)
    (rs : RedisState) : MongoStore :=
  let s2 := (update_workflow_step s1 wid "initialization"
    [("communityId", PyVal.vStr p.community_id),
     ("query", PyVal.vStr p.query),
     ("chatId", match p.chat_id with
                | some c => PyVal.vStr c
                | none => PyVal.vNone),
     ("enableAnswerSkipping", PyVal.vBool p.enable_answer_skipping)] "running").2
  let s3 :=
    if chatTruthy p then
      (update_workflow_step s2 wid "chat_history_retrieval"
        [("chatId", PyVal.vStr (p.chat_id.getD "")),
         ("chatHistoryLength",
          PyVal.vInt (((activityChatHistory p rs).getD "").length : Int))] "running").2
    else
      (update_workflow_step s2 wid "no_chat_history"
        [("reason", PyVal.vStr "No chat_id provided")] "running").2
  let s4 := (update_workflow_step s3 wid "flow_initialization"
    [("flowType", PyVal.vStr "AgenticHivemindFlow"),
     ("enableAnswerSkipping", PyVal.vBool p.enable_answer_skipping)] "running").2
  (update_workflow_step s4 wid "flow_execution_start"
    [("userQuery", PyVal.vStr p.query)] "running").2

/-- The audit steps the happy path writes after the flow returned:
`flow_execution_complete`, `answer_processing`, the conditional
`error_handling` sanitization step, and the conditional `memory_update`
step.  (These writes touch only the audit store; the memory append itself is
in `activityFinish`.) -/
def activityPostflowStore (p : HivemindQueryPayload) (wid : String) (storeF : MongoStore)
    (flowOut : Option FlowAnswer) : MongoStore :=
  let s6 := (update_workflow_step storeF wid "flow_execution_complete"
    [("crewOutputType", PyVal.vStr (crewOutputTypeName flowOut)),
     ("hasOutput", PyVal.vBool flowOut.isSome)] "running").2
  let fa0 := rawFinalAnswer p.enable_answer_skipping flowOut
  let s7 := (update_workflow_step s6 wid "answer_processing"
    [("answerType", PyVal.vStr (answerTypeName fa0)),
     ("answerLength", PyVal.vInt (match fa0 with
                                  | some s => (s.length : Int)
                                  | none => 0)),
     ("enableAnswerSkipping", PyVal.vBool p.enable_answer_skipping)] "running").2
  let s8 :=
    if needsSanitize fa0 then
      (update_workflow_step s7 wid "error_handling"
        [("errorType", PyVal.vStr "crewai_error"),
         ("originalAnswer", PyVal.vStr (fa0.getD "")),
         ("fallbackAnswer", PyVal.vStr sanitizedMessage)] "running").2
    else s7
  let fa := finalAnswerOf p.enable_answer_skipping flowOut
  let doMem := chatTruthy p && !(fa == some "NONE")
  if doMem then
    (update_workflow_step s8 wid "memory_update"
      [("memoryKey", PyVal.vStr (memoryKey p)),
       ("chatEntryLength", PyVal.vInt ((chatLine p.query fa).length : Int))] "running").2
  else s8

/-- The tail of the happy path: the post-flow audit steps, the conditional
memory append, the final `update_response` (status `completed` when the
final answer is truthy and not the "NONE" sentinel, else
`completed_no_answer`), and the returned value ("NONE" mapped to `None`). -/
def activityFinish (p : HivemindQueryPayload) (wid : String) (storeF : MongoStore)
    (rs : RedisState) (flowOut : Option FlowAnswer) : ActivityResult :=
  let fa := finalAnswerOf p.enable_answer_skipping flowOut
  let doMem := chatTruthy p && !(fa == some "NONE")
  let rs1 := if doMem then (append_text rs (memoryKey p) (chatLine p.query fa)).2 else rs
  let s9 := activityPostflowStore p wid storeF flowOut
  let s10 :=
    if !(fa.getD "" == "") && !(fa == some "NONE") then
      (update_response s9 wid fa "completed").2
    else
      (update_response s9 wid (some "No answer generated") "completed_no_answer").2
  { result := Except.ok (if fa == some "NONE" then none else fa),
    mongo := s10, redis := rs1 }

/-- `run_hivemind_agent_activity`. -/
def run_hivemind_agent_activity (p : HivemindQueryPayload) (store0 : MongoStore)
    (rs0 : RedisState) (o : FlowOracle) : ActivityResult :=
  match create_workflow_state store0 p.community_id p.query p.chat_id
      p.enable_answer_skipping with
  | Except.error e =>
    { result := Except.error e, mongo := store0, redis := rs0 }
  | Except.ok (wid, s1) =>
    let s5 := activityPreflowStore p wid s1 rs0
    match runFlow p.query (activityChatHistory p rs0) p.enable_answer_skipping
        (some wid) s5 o with
    | Except.error (e, sE) =>
      let s6 := (update_workflow_step sE wid "error_occurred"
        [("errorType", PyVal.vStr "ValueError"),
         ("errorMessage", PyVal.vStr e)] "failed").2
      let s7 := (update_response s6 wid none "failed").2
      { result := Except.error e, mongo := s7, redis := rs0 }
    | Except.ok run =>
      activityFinish p wid run.mongo rs0 run.output


/-! ### Observables used by the theorems -/

/-- Is this event a generation pass? -/
def isGenerationEvent : FlowEvent → Bool
  | FlowEvent.generation _ => true
  | _ => false

/-- Is this event an Answer Validator invocation? -/
def isValidateEvent : FlowEvent → Bool
  | FlowEvent.validate _ _ => true
  | _ => false

/-- Did a run perform a generation pass? -/
def hasGeneration (evs : List FlowEvent) : Bool := evs.any isGenerationEvent

/-- Did a run invoke the Answer Validator? -/
def hasValidation (evs : List FlowEvent) : Bool := evs.any isValidateEvent

/-- Relation between audit stores along a run: availability unchanged,
every document id present before remains present (updates never delete),
and a fault-free schedule stays fault-free. -/
def storeInv (s t : MongoStore) : Prop :=
  t.available = s.available ∧
  (∀ i, (findDoc t.docs i).isSome = (findDoc s.docs i).isSome) ∧
  (s.faults = [] → t.faults = [])

/-! ## Theorems -/

/-- Every successful result of the simple-response branch has its boolean
derived from the threshold comparison and an in-range score. -/
theorem simpleScore_ok (t : ℚ) (s : String) (r : MessageClassificationResult)
    (h : simpleScore t s = Except.ok r) :
    r.result = decide (t ≤ r.score) ∧ 0 ≤ r.score ∧ r.score ≤ 1 := by
  simp only [simpleScore] at h
  split at h
  · split at h
    next hr => cases h; exact ⟨rfl, hr.1, hr.2⟩
    next => simp at h
  · simp at h

/-- Every successful result of the fallback branch has its boolean derived
from the threshold comparison and an in-range score. -/
theorem fallbackScore_ok (t : ℚ) (s : String) (r : MessageClassificationResult)
    (h : fallbackScore t s = Except.ok r) :
    r.result = decide (t ≤ r.score) ∧ 0 ≤ r.score ∧ r.score ≤ 1 := by
  simp only [fallbackScore] at h
  split at h
  · split at h
    next hr => cases h; exact ⟨rfl, hr.1, hr.2⟩
    next => simp at h
  · simp at h

/-- Every successful result of `classify_message_lm`, through any branch, has
its boolean derived from the threshold comparison and an in-range score. -/
theorem classify_message_lm_ok (er : Bool) (t : ℚ) (content : String)
    (r : MessageClassificationResult)
    (h : classify_message_lm er t content = Except.ok r) :
    r.result = decide (t ≤ r.score) ∧ 0 ≤ r.score ∧ r.score ≤ 1 := by
  simp only [classify_message_lm] at h
  split at h
  · split at h
    · split at h
      next hr => cases h; exact ⟨rfl, hr.1, hr.2⟩
      next => exact fallbackScore_ok _ _ _ h
    · exact fallbackScore_ok _ _ _ h
  · exact simpleScore_ok _ _ _ h

theorem classify_message_lm_eval_simple : classify_message_lm false (mkRat 1 2) "0.7" =
    Except.ok { result := true, score := mkRat 7 10, reasoning := none } := by decide

theorem classify_message_lm_eval_reasoning :
    classify_message_lm true (mkRat 1 2) "Reasoning: needs docs\nScore: 0.8" =
    Except.ok { result := true, score := mkRat 4 5, reasoning := some "needs docs" } := by decide

theorem classify_message_lm_eval_out_of_range :
    (classify_message_lm true (mkRat 1 2) "Reasoning: x\nScore: 1.7").isOk = false := by decide

theorem classify_question_lm_eval_reasoning :
    (classify_question_lm true "Reasoning: asks a thing\nResult: true") =
    Except.ok { result := true, reasoning := some "asks a thing" } := by decide

theorem classify_question_lm_eval_garbled :
    (classify_question_lm true "garbled output").isOk = false := by decide

theorem decDigitsAux_length (fuel : Nat) : ∀ n, (decDigitsAux fuel n).length ≤ fuel := by
  induction fuel with
  | zero => intro n; simp [decDigitsAux]
  | succ f ih =>
    intro n
    simp only [decDigitsAux]
    split
    · simp
    · rw [List.length_append]
      have := ih (n / 10)
      simp only [List.length_singleton]
      omega

theorem decDigitsAux_hex (fuel : Nat) :
    ∀ n, (decDigitsAux fuel n).all isHexChar = true := by
  induction fuel with
  | zero => intro n; rfl
  | succ f ih =>
    intro n
    simp only [decDigitsAux]
    split
    · rfl
    · rw [List.all_append]
      have hd : ∀ k, k < 10 → isHexChar (Char.ofNat (48 + k)) = true := by decide
      have hm : n % 10 < 10 := Nat.mod_lt _ (by decide)
      simp [ih (n / 10), hd _ hm]

/-- The ids the model hands out are well-formed ObjectIds. -/
theorem objectIdOf_valid (n : Nat) : isValidObjectId (objectIdOf n) = true := by
  have hl := decDigitsAux_length 24 n
  have hh := decDigitsAux_hex 24 n
  have hr : (List.replicate (24 - (decDigitsAux 24 n).length) '0').all isHexChar = true := by
    rw [List.all_eq_true]
    intro c hc
    rw [List.eq_of_mem_replicate hc]
    rfl
  show ((List.replicate (24 - (decDigitsAux 24 n).length) '0' ++ decDigitsAux 24 n).length == 24
      && (List.replicate (24 - (decDigitsAux 24 n).length) '0' ++ decDigitsAux 24 n).all isHexChar)
      = true
  rw [Bool.and_eq_true, List.all_append, List.length_append, List.length_replicate]
  refine ⟨?_, ?_⟩
  · simp only [beq_iff_eq]
    omega
  · rw [Bool.and_eq_true]
    exact ⟨hr, hh⟩

/-- C3: for every score-bearing classification result constructed by
`classify_message_lm`, the boolean `result` equals `score >= rag_threshold`,
and the score lies in `[0, 1]` — a parsed score outside `[0, 1]` yields an
error instead of a result; and the `ClassifyQuestion` constructor accepts a
threshold exactly when it lies in `[0, 1]`. -/
theorem c3_score_threshold_contract (t : ℚ) (er : Bool) (content : String) :
    ((classify_question_init t).isOk = true ↔ (0 ≤ t ∧ t ≤ 1)) ∧
    (∀ r, classify_message_lm er t content = Except.ok r →
      r.result = decide (t ≤ r.score) ∧ 0 ≤ r.score ∧ r.score ≤ 1) := by
  constructor
  · unfold classify_question_init
    split
    next hp => simp [Except.isOk, Except.toBool, hp]
    next hn => simp [Except.isOk, Except.toBool, hn]
  · intro r h
    exact classify_message_lm_ok er t content r h

/-- Witness for C3: threshold 1/2 and model response "0.7" produce the
result `true` with the in-range score 7/10. -/
theorem c3_witness :
    true = decide ((mkRat 1 2 : ℚ) ≤ mkRat 7 10) ∧
      (0 : ℚ) ≤ mkRat 7 10 ∧ (mkRat 7 10 : ℚ) ≤ 1 :=
  (c3_score_threshold_contract (mkRat 1 2) false "0.7").2
    { result := true, score := mkRat 7 10, reasoning := none } (by decide)

/-- C2: each of the three failure shapes of the retrieval call — a
workflow-failure error, any other exception, and a failure-shaped return
payload (mapping with a failure key, or string containing the serialized
failure marker) — yields `None`, while a normal text return is passed through
unchanged. -/
theorem c2_retrieval_failure_normalization (call : TemporalCall) :
    (∀ m, call = TemporalCall.raisesWorkflowFailure m → queryDataSources_query call = none) ∧
    (∀ m, call = TemporalCall.raisesOther m → queryDataSources_query call = none) ∧
    (∀ ks, call = TemporalCall.returns (TemporalValue.pyDict ks) →
      (ks.contains "workflowExecutionFailedEventAttributes" || ks.contains "failure") = true →
      queryDataSources_query call = none) ∧
    (∀ s, call = TemporalCall.returns (TemporalValue.pyStr s) →
      strContains s "workflowExecutionFailedEventAttributes" = true →
      queryDataSources_query call = none) ∧
    (∀ s, call = TemporalCall.returns (TemporalValue.pyStr s) →
      strContains s "workflowExecutionFailedEventAttributes" = false →
      queryDataSources_query call = some (TemporalValue.pyStr s)) := by
  refine ⟨?_, ?_, ?_, ?_, ?_⟩
  · rintro m rfl; rfl
  · rintro m rfl; rfl
  · rintro ks rfl hk; simp only [queryDataSources_query]; rw [hk]; rfl
  · rintro s rfl hs; simp only [queryDataSources_query]; rw [hs]; rfl
  · rintro s rfl hs; simp only [queryDataSources_query]; rw [hs]; rfl

/-- Witness for C2: a workflow failure, a failure-shaped dict, a
failure-marked string, and a plain text response. -/
theorem c2_witness :
    queryDataSources_query (TemporalCall.raisesWorkflowFailure "retries exhausted") = none ∧
    queryDataSources_query (TemporalCall.raisesOther "connection reset") = none ∧
    queryDataSources_query (TemporalCall.returns (TemporalValue.pyDict ["failure"])) = none ∧
    queryDataSources_query (TemporalCall.returns
      (TemporalValue.pyStr "cause: workflowExecutionFailedEventAttributes ...")) = none ∧
    queryDataSources_query (TemporalCall.returns (TemporalValue.pyStr "the answer is 4")) =
      some (TemporalValue.pyStr "the answer is 4") :=
  ⟨(c2_retrieval_failure_normalization _).1 "retries exhausted" rfl,
   (c2_retrieval_failure_normalization _).2.1 "connection reset" rfl,
   (c2_retrieval_failure_normalization _).2.2.1 ["failure"] rfl (by decide),
   (c2_retrieval_failure_normalization _).2.2.2.1 _ rfl (by decide),
   (c2_retrieval_failure_normalization _).2.2.2.2 "the answer is 4" rfl (by decide)⟩

/-- C9: the RAG tool never hands `None` to the generation agent — a `None`
retrieval result becomes the literal string "NONE" and any other result is
returned unchanged. -/
theorem c9_rag_tool_never_none (call : TemporalCall) :
    (queryDataSources_query call = none → get_rag_answer call = TemporalValue.pyStr "NONE") ∧
    (∀ v, queryDataSources_query call = some v → get_rag_answer call = v) := by
  constructor
  · intro h; simp [get_rag_answer, h]
  · intro v h; simp [get_rag_answer, h]

/-- Witness for C9: a raising retrieval call surfaces as the string "NONE";
a successful one passes through. -/
theorem c9_witness :
    get_rag_answer (TemporalCall.raisesOther "boom") = TemporalValue.pyStr "NONE" ∧
    get_rag_answer (TemporalCall.returns (TemporalValue.pyStr "found it")) =
      TemporalValue.pyStr "found it" :=
  ⟨(c9_rag_tool_never_none _).1 (by decide),
   (c9_rag_tool_never_none _).2 (TemporalValue.pyStr "found it") (by decide)⟩

/-! ### Redis memory lemmas and C7 -/

theorem string_empty_append (b : String) : "" ++ b = b := by
  obtain ⟨l⟩ := b
  rfl

theorem redisGet_setex_self (rs : RedisState) (key : String) (ttl : Nat) (v : String) :
    redisGet (redisSetex rs key ttl v) key = some v := by
  induction rs with
  | nil => simp [redisSetex, redisGet, List.find?]
  | cons p rest ih =>
    obtain ⟨k, val⟩ := p
    by_cases hk : (k == key) = true
    · simp [redisSetex, hk, redisGet, List.find?]
    · simp only [redisSetex, hk]
      simpa [redisGet, List.find?, hk] using ih

theorem redisGet_delete_self (rs : RedisState) (key : String) :
    redisGet (redisDelete rs key).2 key = none := by
  simp only [redisDelete, redisGet]
  induction rs with
  | nil => rfl
  | cons p rest ih =>
    by_cases hk : (p.1 == key) = true
    · simp [List.filter, hk, ih]
    · simp [List.filter, List.find?, hk, ih]

/-- C7: from an absent key, appending `a` then `b` reads back as `a ++ b`;
deleting then reading yields `None`; a read on the absent key yields `None`
and a delete reports `false` — none of these raises. -/
theorem c7_memory_roundtrip (rs : RedisState) (key a b : String)
    (habs : get_text rs key = none) :
    get_text (append_text (append_text rs key a).2 key b).2 key = some (a ++ b) ∧
    get_text (delete_text (append_text (append_text rs key a).2 key b).2 key).2 key = none ∧
    get_text rs key = none ∧
    (delete_text rs key).1 = false := by
  have habs' : redisGet rs key = none := habs
  have hfind : rs.find? (fun p => p.1 == key) = none := by
    simpa [redisGet] using habs'
  have h1 : (append_text rs key a).2 = redisSetex rs key redisTimeout a := by
    simp [append_text, habs']
  have hget1 : redisGet (redisSetex rs key redisTimeout a) key = some a :=
    redisGet_setex_self rs key redisTimeout a
  have h2 : (append_text (append_text rs key a).2 key b).2 =
      redisSetex (redisSetex rs key redisTimeout a) key redisTimeout (a ++ b) := by
    rw [h1]
    by_cases ha : (a == "") = true
    · have ha' : a = "" := by simpa using ha
      subst ha'
      simp [append_text, hget1, string_empty_append]
    · simp [append_text, hget1, ha]
  have hget2 : get_text (append_text (append_text rs key a).2 key b).2 key = some (a ++ b) := by
    rw [show get_text (append_text (append_text rs key a).2 key b).2 key
        = redisGet (append_text (append_text rs key a).2 key b).2 key from rfl, h2]
    exact redisGet_setex_self _ _ _ _
  refine ⟨hget2, ?_, habs, ?_⟩
  · show redisGet (redisDelete _ key).2 key = none
    exact redisGet_delete_self _ _
  · simp [delete_text, redisDelete, hfind]

/-- Witness for C7 on the empty store. -/
theorem c7_witness :
    get_text (append_text (append_text ([] : RedisState) "conversation:42" "A").2
      "conversation:42" "B").2 "conversation:42" = some "AB" ∧
    get_text (delete_text (append_text (append_text ([] : RedisState) "conversation:42" "A").2
      "conversation:42" "B").2 "conversation:42").2 "conversation:42" = none ∧
    get_text ([] : RedisState) "conversation:42" = none ∧
    (delete_text ([] : RedisState) "conversation:42").1 = false :=
  c7_memory_roundtrip [] "conversation:42" "A" "B" (by decide)

/-! ### Gating cascade: C8 and C4 -/

/-- C8: with `skip_enabled=false` the gating cascade immediately yields the
`continue` routing state, making no classifier call (the event list is
empty) and leaving the audit store untouched. -/
theorem c8_skip_disabled_always_continue (user_query : String) (persist : Option String)
    (store : MongoStore) (o : ClassifierOracle) :
    detect_question user_query false persist store o = Except.ok ("continue", store, []) :=
  rfl

/-- C4 counterexample: with skip enabled, an unrecognized label from the
local classifier — a malformed classifier response, mapped to `None` by
`custom_labels.get` — is routed to `stop` instead of failing the request
with a propagated error. -/
theorem c4_counterexample :
    classify_message "LABEL_2" = none ∧
    detect_question "Is the token listed?" true none
        { available := true, docs := [], nextId := 0, faults := [] }
        { localLabel := "LABEL_2", questionResponse := "true", ragResponse := "1" } =
      Except.ok ("stop", { available := true, docs := [], nextId := 0, faults := [] },
        [FlowEvent.localClassify]) := by
  constructor
  · rfl
  · rfl

/-- C4 amended: with skip enabled, a malformed response of either
language-model classifier (unparseable boolean, unparseable or out-of-range
score) propagates as an error out of the gating cascade and is never mapped
to a routing decision; a malformed (unrecognized) label from the local
question-vs-statement classifier, however, is treated like a statement and
silently mapped to the `stop` routing decision. -/
theorem c4_lm_failures_fatal_local_stop (user_query : String) (persist : Option String)
    (store : MongoStore) (o : ClassifierOracle) :
    (classify_message o.localLabel = some true →
      (classify_question_lm true o.questionResponse).isOk = false →
      (detect_question user_query true persist store o).isOk = false) ∧
    (classify_message o.localLabel = some true →
      (∀ r, classify_question_lm true o.questionResponse = Except.ok r → r.result = true) →
      (classify_message_lm true (mkRat 1 2) o.ragResponse).isOk = false →
      (detect_question user_query true persist store o).isOk = false) ∧
    (classify_message o.localLabel = none →
      ∃ s, detect_question user_query true persist store o =
        Except.ok ("stop", s, [FlowEvent.localClassify])) := by
  refine ⟨?_, ?_, ?_⟩
  · intro hloc hq
    simp only [detect_question, Bool.not_true, Bool.false_eq_true, if_false, hloc]
    cases hcq : classify_question_lm true o.questionResponse with
    | error e => simp [Except.isOk, Except.toBool]
    | ok r => rw [hcq] at hq; simp [Except.isOk, Except.toBool] at hq
  · intro hloc hq hrag
    simp only [detect_question, Bool.not_true, Bool.false_eq_true, if_false, hloc]
    cases hcq : classify_question_lm true o.questionResponse with
    | error e => simp [Except.isOk, Except.toBool]
    | ok r =>
      have hr : r.result = true := hq r hcq
      simp only [hr, Bool.not_true, Bool.false_eq_true, if_false]
      cases hcm : classify_message_lm true (mkRat 1 2) o.ragResponse with
      | error e => simp [Except.isOk, Except.toBool]
      | ok m => rw [hcm] at hrag; simp [Except.isOk, Except.toBool] at hrag
  · intro hloc
    refine ⟨persistStep persist store "local_model_classification"
      [("result", PyVal.vNone), ("model", PyVal.vStr "local_transformer"),
       ("query", PyVal.vStr user_query)], ?_⟩
    simp [detect_question, hloc]

/-- Witness for C4 (amended): an unparseable boolean response makes the
whole cascade fail. -/
theorem c4_witness :
    (detect_question "q" true none { available := true, docs := [], nextId := 0, faults := [] }
      { localLabel := "LABEL_1", questionResponse := "garbled", ragResponse := "1" }).isOk
      = false :=
  (c4_lm_failures_fatal_local_stop "q" none
      { available := true, docs := [], nextId := 0, faults := [] }
      { localLabel := "LABEL_1", questionResponse := "garbled", ragResponse := "1" }).1
    (by decide) (by decide)

/-! ### Validation and refinement loop: C1 -/

/-- The gating cascade makes no generation pass and never invokes the
Answer Validator. -/
theorem detect_question_no_generation (uq : String) (sk : Bool) (persist : Option String)
    (store : MongoStore) (o : ClassifierOracle) (x : String × MongoStore × List FlowEvent)
    (h : detect_question uq sk persist store o = Except.ok x) :
    hasGeneration x.2.2 = false ∧ hasValidation x.2.2 = false := by
  simp only [detect_question] at h
  split at h
  · cases h; exact ⟨rfl, rfl⟩
  · split at h
    · cases h; exact ⟨rfl, rfl⟩
    · split at h
      · simp at h
      · split at h
        · cases h; exact ⟨rfl, rfl⟩
        · split at h
          · simp at h
          · cases h; exact ⟨rfl, rfl⟩

/-- C1 counterexample: the claimed property — every run whose generation
pass produced an answer invokes the Answer Validator — is false: the run on
the query "What is 2+2?" with skip disabled generates an answer and reaches
the terminal state with no validator invocation (indeed
`FlowEvent.validate` is emitted by no code path), and its query is never
rewritten. -/
theorem c1_counterexample :
    ¬ (∀ (q : String) (ch : Option String) (skip : Bool) (persist : Option String)
        (store : MongoStore) (o : FlowOracle) (run : FlowRun),
        runFlow q ch skip persist store o = Except.ok run →
        hasGeneration run.events = true →
        hasValidation run.events = true) := by
  intro hclaim
  have h := hclaim "What is 2+2?" none false none
    { available := true, docs := [], nextId := 0, faults := [] }
    { classifier := { localLabel := "LABEL_1", questionResponse := "true", ragResponse := "1" },
      isHistoryQuery := false, historyCrewRaw := "", ragAgentOutput := "4" }
    { output := some (FlowAnswer.plainString "4"),
      finalState :=
        { user_query := "What is 2+2?", retry_count := 1,
          last_answer := some (FlowAnswer.plainString "4"), state := "continue",
          chat_history := none },
      mongo := { available := true, docs := [], nextId := 0, faults := [] },
      events := [FlowEvent.generation "4"] }
    (by decide) (by decide)
  exact absurd h (by decide)

/-- C1 amended: after any successful generation pass the flow transitions
directly to the terminal stop state: the Answer Validator is never invoked,
`current_query` is never rewritten, `retry_count` is incremented exactly
once, and the flow returns the freshly generated answer — the
validation/refinement loop of the specification is not active in the code. -/
theorem c1_generation_goes_straight_to_terminal (q : String) (ch : Option String)
    (skip : Bool) (persist : Option String) (store : MongoStore) (o : FlowOracle)
    (run : FlowRun) (hrun : runFlow q ch skip persist store o = Except.ok run) :
    hasValidation run.events = false ∧
    run.finalState.user_query = q ∧
    (hasGeneration run.events = true →
      run.finalState.retry_count = 1 ∧
      run.output = run.finalState.last_answer ∧
      run.finalState.last_answer.isSome = true) := by
  simp only [runFlow] at hrun
  split at hrun
  · simp at hrun
  next route store1 ev1 heq =>
    have hev1 := detect_question_no_generation q skip persist store o.classifier _ heq
    have hval1 : ev1.any isValidateEvent = false := hev1.2
    have hgen1 : ev1.any isGenerationEvent = false := hev1.1
    split at hrun
    · cases hrun
      refine ⟨hev1.2, rfl, ?_⟩
      intro hgen
      rw [show hasGeneration ev1 = false from hev1.1] at hgen
      cases hgen
    · split at hrun
      · cases hrun
        refine ⟨?_, rfl, fun _ => ⟨rfl, rfl, rfl⟩⟩
        simp only [hasValidation, List.any_append]
        split
        · simp [List.any_append, hval1, isValidateEvent]
        · simp [hval1, isValidateEvent]
      · cases hrun
        refine ⟨?_, rfl, fun _ => ⟨rfl, rfl, rfl⟩⟩
        simp only [hasValidation, List.any_append]
        split
        · simp [List.any_append, hval1, isValidateEvent]
        · simp [hval1, isValidateEvent]

/-- Witness for C1 (amended) at the counterexample run. -/
theorem c1_witness :
    hasValidation [FlowEvent.generation "4"] = false ∧
    ("What is 2+2?" : String) = "What is 2+2?" ∧
    (hasGeneration [FlowEvent.generation "4"] = true →
      (1 : Nat) = 1 ∧
      (some (FlowAnswer.plainString "4") = some (FlowAnswer.plainString "4")) ∧
      (some (FlowAnswer.plainString "4")).isSome = true) :=
  c1_generation_goes_straight_to_terminal "What is 2+2?" none false none
    { available := true, docs := [], nextId := 0, faults := [] }
    { classifier := { localLabel := "LABEL_1", questionResponse := "true", ragResponse := "1" },
      isHistoryQuery := false, historyCrewRaw := "", ragAgentOutput := "4" }
    { output := some (FlowAnswer.plainString "4"),
      finalState :=
        { user_query := "What is 2+2?", retry_count := 1,
          last_answer := some (FlowAnswer.plainString "4"), state := "continue",
          chat_history := none },
      mongo := { available := true, docs := [], nextId := 0, faults := [] },
      events := [FlowEvent.generation "4"] }
    (by decide)

/-! ### Audit recorder lemmas and C5 -/

theorem findDoc_updateDocs_self (docs : List (String × WorkflowDoc)) (id : String)
    (f : WorkflowDoc → WorkflowDoc) :
    findDoc (updateDocs docs id f) id = (findDoc docs id).map f := by
  induction docs with
  | nil => rfl
  | cons p rest ih =>
    obtain ⟨k, d⟩ := p
    by_cases hk : (k == id) = true
    · simp [updateDocs, hk, findDoc, List.find?]
    · simp only [updateDocs, hk, Bool.false_eq_true, if_false]
      simpa [findDoc, List.find?, hk] using ih

theorem findDoc_updateDocs_isSome (docs : List (String × WorkflowDoc)) (j : String)
    (f : WorkflowDoc → WorkflowDoc) (i : String) :
    (findDoc (updateDocs docs j f) i).isSome = (findDoc docs i).isSome := by
  induction docs with
  | nil => rfl
  | cons p rest ih =>
    obtain ⟨k, d⟩ := p
    by_cases hj : (k == j) = true
    · by_cases hi : (k == i) = true
      · simp [updateDocs, hj, findDoc, List.find?, hi]
      · simp [updateDocs, hj, findDoc, List.find?, hi]
    · by_cases hi : (k == i) = true
      · simp [updateDocs, hj, findDoc, List.find?, hi]
      · simp only [updateDocs, hj, Bool.false_eq_true, if_false]
        simpa [findDoc, List.find?, hi] using ih

theorem findDoc_append_singleton (docs : List (String × WorkflowDoc)) (id : String)
    (doc : WorkflowDoc) :
    (findDoc (docs ++ [(id, doc)]) id).isSome = true := by
  induction docs with
  | nil => simp [findDoc, List.find?]
  | cons p rest ih =>
    by_cases hk : (p.1 == id) = true
    · simp [findDoc, List.find?, hk]
    · simp [findDoc, List.find?, hk, ih]

theorem storeInv_refl (s : MongoStore) : storeInv s s :=
  ⟨rfl, fun _ => rfl, fun h => h⟩

theorem storeInv_trans {s t u : MongoStore} (h1 : storeInv s t) (h2 : storeInv t u) :
    storeInv s u :=
  ⟨h2.1.trans h1.1, fun i => (h2.2.1 i).trans (h1.2.1 i), fun h => h2.2.2 (h1.2.2 h)⟩

theorem popFault_available (s : MongoStore) : (popFault s).2.available = s.available := by
  unfold popFault
  split <;> rfl

theorem popFault_docs (s : MongoStore) : (popFault s).2.docs = s.docs := by
  unfold popFault
  split <;> rfl

theorem popFault_faults_nil (s : MongoStore) (h : s.faults = []) :
    (popFault s).2.faults = [] := by
  unfold popFault
  split
  · exact h
  next f r heq => rw [h] at heq; cases heq

theorem storeInv_popFault (s : MongoStore) : storeInv s (popFault s).2 :=
  ⟨popFault_available s, fun i => by rw [popFault_docs], popFault_faults_nil s⟩

theorem storeInv_update_workflow_step (s : MongoStore) (w n : String) (d : StepData)
    (st : String) : storeInv s (update_workflow_step s w n d st).2 := by
  unfold update_workflow_step
  split
  · exact storeInv_refl s
  · split
    · exact storeInv_refl s
    · split
      · exact storeInv_popFault s
      · split
        · exact storeInv_popFault s
        · exact ⟨popFault_available s,
            fun i => findDoc_updateDocs_isSome s.docs w _ i,
            popFault_faults_nil s⟩

theorem storeInv_update_response (s : MongoStore) (w : String) (m : Option String)
    (st : String) : storeInv s (update_response s w m st).2 := by
  unfold update_response
  split
  · exact storeInv_refl s
  · split
    · exact storeInv_refl s
    · split
      · exact storeInv_popFault s
      · split
        · exact storeInv_popFault s
        · exact ⟨popFault_available s,
            fun i => findDoc_updateDocs_isSome s.docs w _ i,
            popFault_faults_nil s⟩

theorem storeInv_persistStep (persist : Option String) (s : MongoStore) (n : String)
    (d : StepData) : storeInv s (persistStep persist s n d) := by
  unfold persistStep
  split
  · exact storeInv_update_workflow_step _ _ _ _ _
  · exact storeInv_refl s

/-- The gating cascade only ever appends audit steps: whichever way it
returns, the store it hands back is related to the input store by
`storeInv`. -/
theorem detect_question_storeInv (uq : String) (sk : Bool) (persist : Option String)
    (store : MongoStore) (o : ClassifierOracle) :
    (∀ x, detect_question uq sk persist store o = Except.ok x → storeInv store x.2.1) ∧
    (∀ e, detect_question uq sk persist store o = Except.error e → storeInv store e.2) := by
  constructor <;> intro x h <;> simp only [detect_question] at h
  · split at h
    · cases h; exact storeInv_refl store
    · split at h
      · cases h; exact storeInv_persistStep _ _ _ _
      · split at h
        · simp at h
        · split at h
          · cases h
            exact storeInv_trans (storeInv_persistStep _ _ _ _) (storeInv_persistStep _ _ _ _)
          · split at h
            · simp at h
            · cases h
              exact storeInv_trans
                (storeInv_trans (storeInv_persistStep _ _ _ _) (storeInv_persistStep _ _ _ _))
                (storeInv_persistStep _ _ _ _)
  · split at h
    · simp at h
    · split at h
      · simp at h
      · split at h
        · cases h; exact storeInv_persistStep _ _ _ _
        · split at h
          · simp at h
          · split at h
            · cases h
              exact storeInv_trans (storeInv_persistStep _ _ _ _) (storeInv_persistStep _ _ _ _)
            · simp at h

/-- The whole flow only ever appends audit steps. -/
theorem runFlow_storeInv (q : String) (ch : Option String) (sk : Bool)
    (persist : Option String) (store : MongoStore) (o : FlowOracle) :
    (∀ run, runFlow q ch sk persist store o = Except.ok run → storeInv store run.mongo) ∧
    (∀ e, runFlow q ch sk persist store o = Except.error e → storeInv store e.2) := by
  constructor <;> intro x h <;> simp only [runFlow] at h
  · split at h
    · simp at h
    next route store1 ev1 heq =>
      have hdq := (detect_question_storeInv q sk persist store o.classifier).1 _ heq
      split at h
      · cases h; exact hdq
      · split at h
        · cases h
          refine storeInv_trans hdq ?_
          split
          · exact storeInv_persistStep _ _ _ _
          · exact storeInv_refl _
        · cases h
          refine storeInv_trans hdq ?_
          split
          · exact storeInv_persistStep _ _ _ _
          · exact storeInv_refl _
  · split at h
    next e' heq =>
      cases h
      exact (detect_question_storeInv q sk persist store o.classifier).2 _ heq
    next route store1 ev1 heq =>
      split at h
      · simp at h
      · split at h <;> simp at h

/-- C5: every Audit Recorder operation other than `create` degrades to
`false` or `None` — leaving the store untouched — on a malformed identifier
or an unavailable store, while a `create` failure raises and is fatal to the
whole activity invocation. -/
theorem c5_recorder_degradation (store : MongoStore) (wid step_name status : String)
    (d : StepData) (msg : Option String)
    (hbad : isValidObjectId wid = false ∨ store.available = false) :
    (update_workflow_step store wid step_name d status).1 = false ∧
    (update_workflow_step store wid step_name d status).2 = store ∧
    (update_response store wid msg status).1 = false ∧
    (update_response store wid msg status).2 = store ∧
    get_workflow_state store wid = none ∧
    (store.available = false →
      (∀ cid q ch sk, (create_workflow_state store cid q ch sk).isOk = false) ∧
      (∀ p rs o, (run_hivemind_agent_activity p store rs o).result.isOk = false)) := by
  have hstep : update_workflow_step store wid step_name d status = (false, store) := by
    unfold update_workflow_step
    rcases hbad with hv | ha
    · simp [hv]
    · by_cases hv : isValidObjectId wid = true
      · simp [hv, ha]
      · simp [hv]
  have hresp : update_response store wid msg status = (false, store) := by
    unfold update_response
    rcases hbad with hv | ha
    · simp [hv]
    · by_cases hv : isValidObjectId wid = true
      · simp [hv, ha]
      · simp [hv]
  have hget : get_workflow_state store wid = none := by
    unfold get_workflow_state
    rcases hbad with hv | ha
    · simp [hv]
    · by_cases hv : isValidObjectId wid = true
      · simp [hv, ha]
      · simp [hv]
  refine ⟨by rw [hstep], by rw [hstep], by rw [hresp], by rw [hresp], hget, ?_⟩
  intro ha
  constructor
  · intro cid q ch sk
    simp [create_workflow_state, ha, Except.isOk, Except.toBool]
  · intro p rs o
    simp [run_hivemind_agent_activity, create_workflow_state, ha, Except.isOk, Except.toBool]

/-- Witness for C5: an unavailable store and a malformed identifier. -/
theorem c5_witness :
    (update_workflow_step { available := false, docs := [], nextId := 0, faults := [] } "not-an-id"
      "step" [] "running").1 = false ∧
    (update_workflow_step { available := false, docs := [], nextId := 0, faults := [] } "not-an-id"
      "step" [] "running").2 = { available := false, docs := [], nextId := 0, faults := [] } ∧
    (update_response { available := false, docs := [], nextId := 0, faults := [] } "not-an-id"
      (some "m") "completed").1 = false ∧
    (update_response { available := false, docs := [], nextId := 0, faults := [] } "not-an-id"
      (some "m") "completed").2 = { available := false, docs := [], nextId := 0, faults := [] } ∧
    get_workflow_state { available := false, docs := [], nextId := 0, faults := [] } "not-an-id" = none ∧
    (({ available := false, docs := [], nextId := 0, faults := [] } : MongoStore).available = false →
      (∀ cid q ch sk, (create_workflow_state { available := false, docs := [], nextId := 0, faults := [] }
        cid q ch sk).isOk = false) ∧
      (∀ p rs o, (run_hivemind_agent_activity p { available := false, docs := [], nextId := 0, faults := [] }
        rs o).result.isOk = false)) :=
  c5_recorder_degradation { available := false, docs := [], nextId := 0, faults := [] } "not-an-id"
    "step" "running" [] (some "m") (Or.inl (by decide))

/-! ### Activity lemmas and C6, C10 -/

theorem create_ok (store : MongoStore) (cid q : String) (ch : Option String) (sk : Bool)
    (wid : String) (s1 : MongoStore)
    (h : create_workflow_state store cid q ch sk = Except.ok (wid, s1)) :
    wid = objectIdOf store.nextId ∧ s1.available = store.available ∧
    (findDoc s1.docs wid).isSome = true ∧ (store.faults = [] → s1.faults = []) := by
  unfold create_workflow_state at h
  split at h
  · split at h
    · simp at h
    · injection h with h2
      cases h2
      exact ⟨rfl, popFault_available store, findDoc_append_singleton _ _ _,
        popFault_faults_nil store⟩
  · simp at h

theorem update_response_sets_status (s : MongoStore) (w : String) (m : Option String)
    (st : String) (hval : isValidObjectId w = true) (ha : s.available = true)
    (hp : (findDoc s.docs w).isSome = true) (hnf : s.faults = []) :
    ∃ doc, findDoc ((update_response s w m st).2).docs w = some doc ∧
      doc.status = st ∧ doc.response = some m := by
  obtain ⟨d, hd⟩ := Option.isSome_iff_exists.mp hp
  have hpf : (popFault s).1 = false := by simp [popFault, hnf]
  unfold update_response
  simp only [hval, ha, hpf, Bool.not_true, Bool.false_eq_true, if_false, hd]
  rw [findDoc_updateDocs_self, hd]
  exact ⟨_, rfl, rfl, rfl⟩

theorem update_response_finalized_of_inv (s0 s : MongoStore) (w : String)
    (m : Option String) (st : String) (hinv : storeInv s0 s)
    (hval : isValidObjectId w = true) (ha0 : s0.available = true)
    (hp0 : (findDoc s0.docs w).isSome = true) (hnf0 : s0.faults = []) :
    ∃ doc, findDoc ((update_response s w m st).2).docs w = some doc ∧ doc.status = st := by
  obtain ⟨d, hd, hs, _⟩ := update_response_sets_status s w m st hval
    (by rw [hinv.1]; exact ha0) (by rw [hinv.2.1]; exact hp0) (hinv.2.2 hnf0)
  exact ⟨d, hd, hs⟩

theorem storeInv_activityPreflowStore (p : HivemindQueryPayload) (wid : String)
    (s1 : MongoStore) (rs : RedisState) :
    storeInv s1 (activityPreflowStore p wid s1 rs) := by
  simp only [activityPreflowStore]
  repeat'
    first
      | exact storeInv_refl _
      | exact storeInv_update_workflow_step _ _ _ _ _
      | refine storeInv_trans ?_ (storeInv_update_workflow_step _ _ _ _ _)
      | split

theorem storeInv_activityPostflowStore (p : HivemindQueryPayload) (wid : String)
    (storeF : MongoStore) (flowOut : Option FlowAnswer) :
    storeInv storeF (activityPostflowStore p wid storeF flowOut) := by
  simp only [activityPostflowStore]
  repeat'
    first
      | exact storeInv_refl _
      | exact storeInv_update_workflow_step _ _ _ _ _
      | refine storeInv_trans ?_ (storeInv_update_workflow_step _ _ _ _ _)
      | split

theorem activityFinish_result (p : HivemindQueryPayload) (wid : String)
    (storeF : MongoStore) (rs : RedisState) (flowOut : Option FlowAnswer) :
    (activityFinish p wid storeF rs flowOut).result =
      Except.ok (if finalAnswerOf p.enable_answer_skipping flowOut == some "NONE" then none
                 else finalAnswerOf p.enable_answer_skipping flowOut) := rfl

theorem activityFinish_redis (p : HivemindQueryPayload) (wid : String)
    (storeF : MongoStore) (rs : RedisState) (flowOut : Option FlowAnswer) :
    (activityFinish p wid storeF rs flowOut).redis =
      (if chatTruthy p && !(finalAnswerOf p.enable_answer_skipping flowOut == some "NONE")
       then (append_text rs (memoryKey p)
         (chatLine p.query (finalAnswerOf p.enable_answer_skipping flowOut))).2
       else rs) := rfl

theorem activityFinish_finalized (p : HivemindQueryPayload) (wid : String)
    (storeF : MongoStore) (rs : RedisState) (flowOut : Option FlowAnswer)
    (hval : isValidObjectId wid = true) (ha : storeF.available = true)
    (hp : (findDoc storeF.docs wid).isSome = true) (hnf : storeF.faults = []) :
    ∃ doc, findDoc (activityFinish p wid storeF rs flowOut).mongo.docs wid = some doc ∧
      (doc.status = "completed" ∨ doc.status = "completed_no_answer") := by
  have hinv := storeInv_activityPostflowStore p wid storeF flowOut
  simp only [activityFinish]
  split
  · obtain ⟨doc, hd, hs⟩ := update_response_finalized_of_inv storeF _ wid _ "completed"
      hinv hval ha hp hnf
    exact ⟨doc, hd, Or.inl hs⟩
  · obtain ⟨doc, hd, hs⟩ := update_response_finalized_of_inv storeF _ wid _
      "completed_no_answer" hinv hval ha hp hnf
    exact ⟨doc, hd, Or.inr hs⟩

/-- C6 counterexample: the claimed property — every completed invocation
leaves a finalized Audit Record behind unless record creation itself failed
— is false: in the run below the record is created successfully and the
invocation completes normally (returning the fallback answer), but the
store's eighth client call — the finalizing `update_response` — raises; the
code absorbs that exception as `False` and the record is left in status
`running`, which is none of `completed`, `completed_no_answer`, `failed`. -/
theorem c6_counterexample :
    (run_hivemind_agent_activity
      { community_id := "c", query := "q", enable_answer_skipping := false, chat_id := none }
      { available := true, docs := [], nextId := 0,
        faults := [false, false, false, false, false, false, false, true] } []
      { classifier :=
          { localLabel := "LABEL_1", questionResponse := "true", ragResponse := "1" },
        isHistoryQuery := false, historyCrewRaw := "", ragAgentOutput := "4" }).result =
      Except.ok (some "No answer was generated.") ∧
    (create_workflow_state
      { available := true, docs := [], nextId := 0,
        faults := [false, false, false, false, false, false, false, true] }
      "c" "q" none false).isOk = true ∧
    ((findDoc (run_hivemind_agent_activity
      { community_id := "c", query := "q", enable_answer_skipping := false, chat_id := none }
      { available := true, docs := [], nextId := 0,
        faults := [false, false, false, false, false, false, false, true] } []
      { classifier :=
          { localLabel := "LABEL_1", questionResponse := "true", ragResponse := "1" },
        isHistoryQuery := false, historyCrewRaw := "", ragAgentOutput := "4" }).mongo.docs
      (objectIdOf 0)).map (fun d => d.status)) = some "running" := by
  decide

/-- C6 amended: for every completed invocation the engine returns either an
answer string or the absent-answer sentinel (the returned value is exactly
the final answer with the "NONE" sentinel mapped to `None`); when no crew
output was produced with skip-answering disabled, the returned value is the
human-readable "No answer was generated." message; and — whether the flow
returns or raises — a finalized Audit Record with status `completed`,
`completed_no_answer` or `failed` is left behind, provided record creation
succeeded (the availability hypothesis) and no audit-store write after
creation fails (the fault-free hypothesis): a store failure on the
finalizing write itself is absorbed as `False` and leaves the record in
status `running`, as the counterexample shows. -/
theorem c6_exit_and_finalized_audit (p : HivemindQueryPayload) (store : MongoStore)
    (rs : RedisState) (o : FlowOracle) (hav : store.available = true)
    (hnf : store.faults = []) :
    (∀ wid s1 run,
      create_workflow_state store p.community_id p.query p.chat_id p.enable_answer_skipping
        = Except.ok (wid, s1) →
      runFlow p.query (activityChatHistory p rs) p.enable_answer_skipping (some wid)
        (activityPreflowStore p wid s1 rs) o = Except.ok run →
      ((run_hivemind_agent_activity p store rs o).result =
        Except.ok (if finalAnswerOf p.enable_answer_skipping run.output == some "NONE"
                   then none else finalAnswerOf p.enable_answer_skipping run.output) ∧
       (p.enable_answer_skipping = false →
        (∀ raw, run.output ≠ some (FlowAnswer.crewOutput raw)) →
        (run_hivemind_agent_activity p store rs o).result =
          Except.ok (some "No answer was generated.")))) ∧
    (∃ doc, findDoc (run_hivemind_agent_activity p store rs o).mongo.docs
        (objectIdOf store.nextId) = some doc ∧
      (doc.status = "completed" ∨ doc.status = "completed_no_answer" ∨
        doc.status = "failed")) := by
  constructor
  · intro wid s1 run hcreate hrun
    have hact : run_hivemind_agent_activity p store rs o =
        activityFinish p wid run.mongo rs run.output := by
      unfold run_hivemind_agent_activity
      simp only [hcreate, hrun]
    constructor
    · rw [hact, activityFinish_result]
    · intro hskip hnoco
      have hfa : finalAnswerOf p.enable_answer_skipping run.output =
          some "No answer was generated." := by
        cases hout : run.output with
        | none => rw [hskip]; decide
        | some a =>
          cases a with
          | crewOutput raw => exact absurd hout (hnoco raw)
          | plainString s =>
            rw [hskip]
            simp only [finalAnswerOf, rawFinalAnswer]
            decide
      rw [hact, activityFinish_result, hfa]
      rfl
  · cases hc : create_workflow_state store p.community_id p.query p.chat_id
        p.enable_answer_skipping with
    | error e =>
      exact absurd hc (by simp [create_workflow_state, hav, popFault, hnf])
    | ok pr =>
      obtain ⟨wid, s1⟩ := pr
      obtain ⟨hwid, hs1a, hs1p, hs1f'⟩ := create_ok store _ _ _ _ wid s1 hc
      have hval : isValidObjectId wid = true := by rw [hwid]; exact objectIdOf_valid _
      have hs1a' : s1.available = true := by rw [hs1a]; exact hav
      have hs1f : s1.faults = [] := hs1f' hnf
      have hpre := storeInv_activityPreflowStore p wid s1 rs
      rw [← hwid]
      cases hr : runFlow p.query (activityChatHistory p rs) p.enable_answer_skipping
          (some wid) (activityPreflowStore p wid s1 rs) o with
      | error epair =>
        obtain ⟨e, sE⟩ := epair
        have hinvE : storeInv s1 sE :=
          storeInv_trans hpre
            ((runFlow_storeInv p.query (activityChatHistory p rs) p.enable_answer_skipping
              (some wid) (activityPreflowStore p wid s1 rs) o).2 (e, sE) hr)
        have hact : run_hivemind_agent_activity p store rs o =
            { result := Except.error e,
              mongo := (update_response ((update_workflow_step sE wid "error_occurred"
                [("errorType", PyVal.vStr "ValueError"),
                 ("errorMessage", PyVal.vStr e)] "failed").2) wid none "failed").2,
              redis := rs } := by
          unfold run_hivemind_agent_activity
          simp only [hc, hr]
        rw [hact]
        obtain ⟨doc, hd, hs⟩ := update_response_finalized_of_inv s1 _ wid none "failed"
          (storeInv_trans hinvE (storeInv_update_workflow_step _ _ _ _ _))
          hval hs1a' hs1p hs1f
        exact ⟨doc, hd, Or.inr (Or.inr hs)⟩
      | ok run =>
        have hact : run_hivemind_agent_activity p store rs o =
            activityFinish p wid run.mongo rs run.output := by
          unfold run_hivemind_agent_activity
          simp only [hc, hr]
        rw [hact]
        have hinvF : storeInv s1 run.mongo :=
          storeInv_trans hpre
            ((runFlow_storeInv p.query (activityChatHistory p rs) p.enable_answer_skipping
              (some wid) (activityPreflowStore p wid s1 rs) o).1 run hr)
        obtain ⟨doc, hd, hs⟩ := activityFinish_finalized p wid run.mongo rs run.output hval
          (by rw [hinvF.1]; exact hs1a') (by rw [hinvF.2.1]; exact hs1p) (hinvF.2.2 hs1f)
        rcases hs with h | h
        · exact ⟨doc, hd, Or.inl h⟩
        · exact ⟨doc, hd, Or.inr (Or.inl h)⟩

/-- Witness for C6: a skip-disabled run whose rag path produced a plain
string (not a crew output) returns the human-readable fallback message. -/
theorem c6_witness :
    (run_hivemind_agent_activity
      { community_id := "c", query := "q", enable_answer_skipping := false, chat_id := none }
      { available := true, docs := [], nextId := 0, faults := [] } []
      { classifier :=
          { localLabel := "LABEL_1", questionResponse := "true", ragResponse := "1" },
        isHistoryQuery := false, historyCrewRaw := "", ragAgentOutput := "4" }).result =
      Except.ok (some "No answer was generated.") :=
  ((c6_exit_and_finalized_audit
      { community_id := "c", query := "q", enable_answer_skipping := false, chat_id := none }
      { available := true, docs := [], nextId := 0, faults := [] } []
      { classifier :=
          { localLabel := "LABEL_1", questionResponse := "true", ragResponse := "1" },
        isHistoryQuery := false, historyCrewRaw := "", ragAgentOutput := "4" }
      rfl rfl).1
    (objectIdOf 0)
    { available := true,
      docs := [(objectIdOf 0,
        { communityId := "c", question := "q", response := none, steps := [],
          currentStep := "initialized", status := "running", chatId := none,
          enableAnswerSkipping := false })],
      nextId := 1, faults := [] }
    { output := some (FlowAnswer.plainString "4"),
      finalState :=
        { user_query := "q", retry_count := 1,
          last_answer := some (FlowAnswer.plainString "4"), state := "continue",
          chat_history := none },
      mongo := activityPreflowStore
        { community_id := "c", query := "q", enable_answer_skipping := false,
          chat_id := none }
        (objectIdOf 0)
        { available := true,
          docs := [(objectIdOf 0,
            { communityId := "c", question := "q", response := none, steps := [],
              currentStep := "initialized", status := "running", chatId := none,
              enableAnswerSkipping := false })],
          nextId := 1, faults := [] } [],
      events := [FlowEvent.generation "4"] }
    (by decide) (by decide)).2 rfl
    (fun raw h => FlowAnswer.noConfusion (Option.some.inj h))

/-- C10: the conversational memory is touched only when a chat session id
was provided and the final answer is not the literal string "NONE", in which
case exactly the line `User: {query}\nAgent: {final_answer}` is appended to
the session key (so the skip-disabled fallback message is itself appended);
in every other case — including a flow exception or a failed audit-record
creation — the memory store is left exactly as it was. -/
theorem c10_memory_frame (p : HivemindQueryPayload) (store : MongoStore)
    (rs : RedisState) (o : FlowOracle) :
    (∀ wid s1 run,
      create_workflow_state store p.community_id p.query p.chat_id p.enable_answer_skipping
        = Except.ok (wid, s1) →
      runFlow p.query (activityChatHistory p rs) p.enable_answer_skipping (some wid)
        (activityPreflowStore p wid s1 rs) o = Except.ok run →
      ((chatTruthy p && !(finalAnswerOf p.enable_answer_skipping run.output == some "NONE"))
          = true →
        (run_hivemind_agent_activity p store rs o).redis =
          (append_text rs (memoryKey p)
            (chatLine p.query (finalAnswerOf p.enable_answer_skipping run.output))).2) ∧
      ((chatTruthy p && !(finalAnswerOf p.enable_answer_skipping run.output == some "NONE"))
          = false →
        (run_hivemind_agent_activity p store rs o).redis = rs)) ∧
    (∀ wid s1 e sE,
      create_workflow_state store p.community_id p.query p.chat_id p.enable_answer_skipping
        = Except.ok (wid, s1) →
      runFlow p.query (activityChatHistory p rs) p.enable_answer_skipping (some wid)
        (activityPreflowStore p wid s1 rs) o = Except.error (e, sE) →
      (run_hivemind_agent_activity p store rs o).redis = rs) ∧
    (∀ e, create_workflow_state store p.community_id p.query p.chat_id
        p.enable_answer_skipping = Except.error e →
      (run_hivemind_agent_activity p store rs o).redis = rs) := by
  refine ⟨?_, ?_, ?_⟩
  · intro wid s1 run hcreate hrun
    have hact : run_hivemind_agent_activity p store rs o =
        activityFinish p wid run.mongo rs run.output := by
      unfold run_hivemind_agent_activity
      simp only [hcreate, hrun]
    constructor
    · intro hcond
      rw [hact, activityFinish_redis]
      simp only [hcond, if_true]
    · intro hcond
      rw [hact, activityFinish_redis]
      simp only [hcond, Bool.false_eq_true, if_false]
  · intro wid s1 e sE hcreate herr
    have hact : (run_hivemind_agent_activity p store rs o).redis = rs := by
      unfold run_hivemind_agent_activity
      simp only [hcreate, herr]
    exact hact
  · intro e hcreate
    unfold run_hivemind_agent_activity
    simp only [hcreate]

/-- Witness for C10: with chat id "42" the skip-disabled fallback message is
appended to the conversation key. -/
theorem c10_witness :
    (run_hivemind_agent_activity
      { community_id := "c", query := "hi", enable_answer_skipping := false,
        chat_id := some "42" }
      { available := true, docs := [], nextId := 0, faults := [] } []
      { classifier :=
          { localLabel := "LABEL_1", questionResponse := "true", ragResponse := "1" },
        isHistoryQuery := false, historyCrewRaw := "", ragAgentOutput := "4" }).redis =
      (append_text [] "conversation:42"
        "User: hi\nAgent: No answer was generated.").2 :=
  (((c10_memory_frame
      { community_id := "c", query := "hi", enable_answer_skipping := false,
        chat_id := some "42" }
      { available := true, docs := [], nextId := 0, faults := [] } []
      { classifier :=
          { localLabel := "LABEL_1", questionResponse := "true", ragResponse := "1" },
        isHistoryQuery := false, historyCrewRaw := "", ragAgentOutput := "4" }).1
    (objectIdOf 0)
    { available := true,
      docs := [(objectIdOf 0,
        { communityId := "c", question := "hi", response := none, steps := [],
          currentStep := "initialized", status := "running", chatId := some "42",
          enableAnswerSkipping := false })],
      nextId := 1, faults := [] }
    { output := some (FlowAnswer.plainString "4"),
      finalState :=
        { user_query := "hi", retry_count := 1,
          last_answer := some (FlowAnswer.plainString "4"), state := "continue",
          chat_history := none },
      mongo := activityPreflowStore
        { community_id := "c", query := "hi", enable_answer_skipping := false,
          chat_id := some "42" }
        (objectIdOf 0)
        { available := true,
          docs := [(objectIdOf 0,
            { communityId := "c", question := "hi", response := none, steps := [],
              currentStep := "initialized", status := "running", chatId := some "42",
              enableAnswerSkipping := false })],
          nextId := 1, faults := [] } [],
      events := [FlowEvent.generation "4"] }
    (by decide) (by decide)).1 (by decide))

end AgentsWorkflow
